import Mathlib

/-!
Shallow embedding of the wgsl-renderer multi-pass rendering orchestrator
(src/src/index.ts main variant, src/src/RenderPass.ts, src/src/TextureManager.ts,
src/src/PassTextureRef.ts, and the renderFrame loop of the part_002 snapshot).

Conventions of the embedding:
* JavaScript `undefined`-able values are `Option`; the truthiness of `x || d`
  on strings/numbers is modelled by `orFalsyStr` / `orFalsyNat` (empty string
  and 0 are falsy), `x ?? d` by `Option.getD`.
* GPU device allocation (`device.createTexture`) is modelled by a fresh-id
  counter threaded through the state; a texture value records the descriptor
  it was created with.  Opaque GPU handles supplied by the caller (buffers,
  samplers, externally created views) are constructors carrying a numeric id.
* JavaScript `Map` and plain-object string maps are association lists that
  keep insertion order; `Map.set` / `obj[k] = v` replace in place.
* Thrown exceptions are `Except RendererError`; functions that cannot throw
  are total.
-/

namespace WGSL

/-- Association-list lookup, first binding wins (JS `Map.get` / `obj[k]`). -/
def assocFind {α : Type} : List (String × α) → String → Option α
  | [], _ => none
  | (k, v) :: rest, key => if k = key then some v else assocFind rest key

/-- Association-list update: replace in place if the key exists (JS `Map.set`
keeps the original insertion position), otherwise append. -/
def assocSet {α : Type} : List (String × α) → String → α → List (String × α)
  | [], key, v => [(key, v)]
  | (k, w) :: rest, key, v =>
    if k = key then (key, v) :: rest else (k, w) :: assocSet rest key v

/-- JS `x || d` for an optional string: `undefined` and `""` are falsy. -/
def orFalsyStr : Option String → String → String
  | none, d => d
  | some s, d => if s = "" then d else s

/-- JS `x || d` for an optional number: `undefined` and `0` are falsy. -/
def orFalsyNat : Option Nat → Nat → Nat
  | none, d => d
  | some n, d => if n = 0 then d else n

/-- JS truthiness of an optional boolean (`undefined` is falsy). -/
def jsTrue : Option Bool → Bool
  | none => false
  | some b => b

/-- JS `x && x > 1` on an optional number (`undefined` and `0` are falsy). -/
def jsGt1 : Option Nat → Bool
  | none => false
  | some n => decide (1 < n)

/-- GPUTextureUsage bit flags (WebGPU constants). -/
def COPY_SRC : Nat := 1

/-- GPUTextureUsage.COPY_DST. -/
def COPY_DST : Nat := 2

/-- GPUTextureUsage.TEXTURE_BINDING. -/
def TEXTURE_BINDING : Nat := 4

/-- GPUTextureUsage.RENDER_ATTACHMENT. -/
def RENDER_ATTACHMENT : Nat := 16

/-- A texture allocated by `device.createTexture`: the id models handle
identity, the remaining fields record the creation descriptor (WebGPU
defaults: `mipLevelCount` 1, `sampleCount` 1 when omitted). -/
structure GPUTexture where
  id : Nat
  width : Nat
  height : Nat
  format : String
  usage : Nat
  mipLevelCount : Nat
  sampleCount : Nat
deriving DecidableEq

/-- A texture view: either an opaque caller-supplied view, or a view of a
modelled texture produced by `texture.createView` with the given base mip
level and mip level count. -/
inductive GPUTextureView
  | external (id : Nat)
  | ofTexture (texture : GPUTexture) (baseMipLevel : Nat) (mipLevelCount : Nat)
deriving DecidableEq

/-- `texture.createView()` with no arguments: the view covers the full mip
chain of the texture. -/
def GPUTexture.createViewFull (t : GPUTexture) : GPUTextureView :=
  .ofTexture t 0 t.mipLevelCount

/-- A concrete GPUBindingResource: buffer binding, sampler, or texture view. -/
inductive GPUBindingRes
  | buffer (id : Nat)
  | sampler (id : Nat)
  | textureView (view : GPUTextureView)
deriving DecidableEq

/-- Options carried by a `PassTextureRef` (src/src/index.ts `getPassTexture`
options and the PassTextureRef variant used by the main index.ts). -/
structure TextureRefOptions where
  format : Option String := none
  mipmaps : Option Bool := none
  sampleCount : Option Nat := none
  usage : Option Nat := none
deriving DecidableEq

/-- A deferred reference to the output texture of a named pass
(src/src/PassTextureRef.ts). -/
structure PassTextureRef where
  passName : String
  options : Option TextureRefOptions := none
deriving DecidableEq

/-- `BindingResource = GPUBindingResource | PassTextureRef`
(src/src/RenderPass.ts line 3); the runtime marker test `isPassTextureRef`
becomes the constructor tag. -/
inductive BindingResource
  | concrete (res : GPUBindingRes)
  | ref (r : PassTextureRef)
deriving DecidableEq

/-- A realized bind group: `device.createBindGroup` over (binding, resource)
entries. -/
structure GPUBindGroup where
  entries : List (Nat × GPUBindingRes)
deriving DecidableEq

/-- Clear color `{r,g,b,a}`; the components are opaque data for the verified
claims (no arithmetic is performed on them). -/
structure ClearColor where
  r : Int
  g : Int
  b : Int
  a : Int
deriving DecidableEq

/-- Optional custom entry point names of a pass descriptor. -/
structure EntryPoints where
  vertex : Option String := none
  fragment : Option String := none
deriving DecidableEq

/-! ## TextureManager (src/src/TextureManager.ts, second block of the file) -/

/-- The Texture Pool: named size-bound textures plus the current pixel
dimensions. -/
structure TextureManager where
  textures : List (String × GPUTexture)
  width : Nat
  height : Nat
deriving DecidableEq

/-- `TextureManager.getTexture`: `Map.get`, total, `none` when absent. -/
def TextureManager.getTexture (tm : TextureManager) (name : String) : Option GPUTexture :=
  assocFind tm.textures name

/-- `TextureManager.createTexture(name, format?, mipLevelCount?)`: destroys
any existing entry under the name (modelled by in-place replacement) and
creates a texture of the pool's current dimensions with format
`format || 'bgra8unorm'` and `mipLevelCount || 1`.  `freshId` models the
handle returned by `device.createTexture`. -/
def TextureManager.createTexture (tm : TextureManager) (freshId : Nat) (name : String)
    (format : Option String) (mipLevelCount : Option Nat) : GPUTexture × TextureManager :=
  let texture : GPUTexture :=
    { id := freshId, width := tm.width, height := tm.height
      format := orFalsyStr format "bgra8unorm"
      usage := RENDER_ATTACHMENT ||| TEXTURE_BINDING ||| COPY_DST
      mipLevelCount := orFalsyNat mipLevelCount 1
      sampleCount := 1 }
  (texture, { tm with textures := assocSet tm.textures name texture })

/-- `TextureManager.resize(width, height)`: a same-size resize returns
immediately; otherwise every pooled texture is destroyed and the map is
cleared, textures being recreated on demand later. -/
def TextureManager.resize (tm : TextureManager) (width height : Nat) : TextureManager :=
  if width = tm.width ∧ height = tm.height then tm
  else { textures := [], width := width, height := height }

/-- `TextureManager.setTexture(name, texture)`: store a texture built
elsewhere. -/
def TextureManager.setTexture (tm : TextureManager) (name : String) (texture : GPUTexture) :
    TextureManager :=
  { tm with textures := assocSet tm.textures name texture }

/-- `TextureManager.getPixelSize()`. -/
def TextureManager.getPixelSize (tm : TextureManager) : Nat × Nat :=
  (tm.width, tm.height)

/-! ## Errors (section 7 of the spec: `throw new Error(...)` sites) -/

/-- Error taxonomy of the renderer.  `unknownPass` carries the list of
currently registered pass names in registry order (the `Available passes:
[...]` part of the thrown message); `unknownSet` carries the pass's bind
group set names; `formatMismatch` is the `Format must be set to ...` error
of `getPassTexture`. -/
inductive RendererError
  | unknownPass (requested : String) (available : List String)
  | unknownSet (requested : String) (availableSets : List String)
  | formatMismatch (passName : String) (expected : Option String)
deriving DecidableEq

/-! ## RenderPass (src/src/RenderPass.ts, first block of the file) -/

/-- Caller-facing `RenderPassOptions`.  `shaderCode` and `entryPoints` only
feed the (opaque) pipeline compilation. -/
structure RenderPassOptions where
  name : String
  shaderCode : String := ""
  entryPoints : Option EntryPoints := none
  clearColor : Option ClearColor := none
  blendMode : Option String := none
  resources : Option (List BindingResource) := none
  bindGroupSets : Option (List (String × List BindingResource)) := none
  view : Option GPUTextureView := none
  format : Option String := none
  renderToCanvas : Option Bool := none
  sampleCount : Option Nat := none
deriving DecidableEq

/-- `InternalRenderPassDescriptor` built by `createPass` in index.ts. -/
structure InternalRenderPassDescriptor where
  name : String
  shaderCode : String
  entryPoints : Option EntryPoints
  clearColor : Option ClearColor
  blendMode : Option String
  bindGroupEntries : List (Nat × BindingResource)
  bindGroupSets : Option (List (String × List BindingResource))
  view : Option GPUTextureView
  format : Option String
  renderToCanvas : Option Bool
  sampleCount : Option Nat
deriving DecidableEq

/-- The `RenderPass` object state.  The compiled pipeline, shader module and
vertex buffer are opaque GPU objects not needed by any claim; the pipeline's
color target format (`actualFormat = descriptor.format || format`) is kept
as `pipelineFormat`.  The class in src/src/RenderPass.ts declares no
`sampleCount` property and its constructor never assigns one, so the reads
of `pass.sampleCount` in index.ts's `renderFrame` see `undefined`; the field
is kept to mirror those reads. -/
structure RenderPass where
  name : String
  clearColor : ClearColor
  blendMode : String
  view : Option GPUTextureView
  format : Option String
  renderToCanvas : Option Bool
  sampleCount : Option Nat
  pipelineFormat : String
  passResources : List BindingResource
  bindGroups : List (String × GPUBindGroup)
  activeBindGroupSet : String
  bindGroup : Option GPUBindGroup
  enabled : Bool
  descriptor : InternalRenderPassDescriptor
deriving DecidableEq

/-- The `RenderPass` constructor (src/src/RenderPass.ts lines 68-137):
`clearColor = descriptor.clearColor || {0,0,0,1}`,
`blendMode = descriptor.blendMode || 'none'`, bind-group map starts empty,
`activeBindGroupSet` starts `'default'`, `bindGroup` starts null,
`enabled` starts true, `passResources` starts `[]`. -/
def mkRenderPass (descriptor : InternalRenderPassDescriptor) (format : String) : RenderPass :=
  { name := descriptor.name
    clearColor := descriptor.clearColor.getD ⟨0, 0, 0, 1⟩
    blendMode := orFalsyStr descriptor.blendMode "none"
    view := descriptor.view
    format := descriptor.format
    renderToCanvas := descriptor.renderToCanvas
    sampleCount := none
    pipelineFormat := orFalsyStr descriptor.format format
    passResources := []
    bindGroups := []
    activeBindGroupSet := "default"
    bindGroup := none
    enabled := true
    descriptor := descriptor }

/-- `RenderPass.updateBindGroup(newEntries)`: rebuild `this.bindGroup` and
the `"default"` entry of the bind-group map. -/
def RenderPass.updateBindGroup (p : RenderPass) (newEntries : List (Nat × GPUBindingRes)) :
    RenderPass :=
  let g : GPUBindGroup := ⟨newEntries⟩
  { p with bindGroup := some g, bindGroups := assocSet p.bindGroups "default" g }

/-- `RenderPass.updateBindGroupSet(setName, newEntries)`: only creates the
set when the name is absent from the map. -/
def RenderPass.updateBindGroupSet (p : RenderPass) (setName : String)
    (newEntries : List (Nat × GPUBindingRes)) : RenderPass :=
  match assocFind p.bindGroups setName with
  | some _ => p
  | none => { p with bindGroups := assocSet p.bindGroups setName ⟨newEntries⟩ }

/-- `RenderPass.switchBindGroupSet(setName)`: if the set exists it becomes
active (also updating `this.bindGroup`), otherwise an `UnknownSet` error is
thrown whose payload lists the pass's set names. -/
def RenderPass.switchBindGroupSet (p : RenderPass) (setName : String) :
    Except RendererError RenderPass :=
  match assocFind p.bindGroups setName with
  | some g => .ok { p with activeBindGroupSet := setName, bindGroup := some g }
  | none => .error (.unknownSet setName (p.bindGroups.map Prod.fst))

/-- `RenderPass.getActiveBindGroup()`:
`this.bindGroups[this.activeBindGroupSet] || this.bindGroup` (bind groups
are objects, hence truthy). -/
def RenderPass.getActiveBindGroup (p : RenderPass) : Option GPUBindGroup :=
  match assocFind p.bindGroups p.activeBindGroupSet with
  | some g => some g
  | none => p.bindGroup

/-- `RenderPass.updateBindGroupSetResources(setName, resources)`: builds
entries `(index, resource)` from the (already resolved) resources, creates
or replaces the named set, and re-points `this.bindGroup` when the set is
the active one. -/
def RenderPass.updateBindGroupSetResources (p : RenderPass) (setName : String)
    (resources : List GPUBindingRes) : RenderPass :=
  let entries := (List.range resources.length).zip resources
  let g : GPUBindGroup := ⟨entries⟩
  let p' := { p with bindGroups := assocSet p.bindGroups setName g }
  if p.activeBindGroupSet = setName then { p' with bindGroup := some g } else p'

/-- One mutation of a `RenderPass` after construction, as performed by the
public methods; a failing `switchBindGroupSet` leaves the pass unchanged. -/
inductive PassOp
  | update (entries : List (Nat × GPUBindingRes))
  | updateSet (setName : String) (entries : List (Nat × GPUBindingRes))
  | switchSet (setName : String)
  | updateSetResources (setName : String) (resources : List GPUBindingRes)
deriving DecidableEq

/-- Apply one pass mutation. -/
def applyPassOp (p : RenderPass) (op : PassOp) : RenderPass :=
  match op with
  | .update entries => p.updateBindGroup entries
  | .updateSet n e => p.updateBindGroupSet n e
  | .switchSet n =>
    match p.switchBindGroupSet n with
    | .ok p' => p'
    | .error _ => p
  | .updateSetResources n rs => p.updateBindGroupSetResources n rs

/-- A pass state reachable from construction by a sequence of bind-group
operations (the pass's only post-construction mutations besides the
`enabled` flag and `passResources`, which the bind-group claims ignore). -/
def ReachablePass (p : RenderPass) : Prop :=
  ∃ (d : InternalRenderPassDescriptor) (fmt : String) (ops : List PassOp),
    p = ops.foldl applyPassOp (mkRenderPass d fmt)

/-- Invariant of a pass's bind-group state: a non-`default` active pointer
always names an existing set (a switch only succeeds to an existing set and
sets are never deleted), and when the active pointer names no set the
current `bindGroup` is still null. -/
def PassInv (p : RenderPass) : Prop :=
  (p.activeBindGroupSet ≠ "default" →
    (assocFind p.bindGroups p.activeBindGroupSet).isSome) ∧
  (assocFind p.bindGroups p.activeBindGroupSet = none → p.bindGroup = none)

/-! ## WGSLRenderer (src/src/index.ts, first block of the file) -/

/-- The renderer state after `init()`: the ordered pass registry, the
texture pool, the preferred canvas format, the supported sample counts
(initialized to `[1]` and never extended), the canvas pixel dimensions, and
the fresh-id counter modelling `device.createTexture` handles. -/
structure Renderer where
  passes : List RenderPass
  textureManager : TextureManager
  format : String
  supportedSampleCounts : List Nat
  canvasWidth : Nat
  canvasHeight : Nat
  nextId : Nat
deriving DecidableEq

/-- `isSampleCountSupported`: both branches of the source return
`this.supportedSampleCounts.includes(sampleCount)`. -/
def Renderer.isSampleCountSupported (r : Renderer) (sampleCount : Nat) : Bool :=
  r.supportedSampleCounts.contains sampleCount

/-- Predicate used by every name lookup: `pass.name === passName`. -/
def passNamed (passName : String) : RenderPass → Bool :=
  fun p => p.name == passName

/-- The `UnknownPass` error thrown on a failed lookup, whose payload is
`this.passes.map(p => p.name)` in registry order. -/
def Renderer.unknownPassError (r : Renderer) (passName : String) : RendererError :=
  .unknownPass passName (r.passes.map RenderPass.name)

/-- `getPassByName`: `this.passes.find(...)`. -/
def Renderer.getPassByName (r : Renderer) (passName : String) : Option RenderPass :=
  r.passes.find? (passNamed passName)

/-- Replace the first pass with the given name (in-place object mutation of
the pass returned by `find`). -/
def updateFirstPass : List RenderPass → String → (RenderPass → RenderPass) → List RenderPass
  | [], _, _ => []
  | p :: ps, n, f =>
    if p.name = n then f p :: ps else p :: updateFirstPass ps n f

/-- `disablePass(passName)`: `UnknownPass` when absent, else clears the
`enabled` flag of the found pass. -/
def Renderer.disablePass (r : Renderer) (passName : String) : Except RendererError Renderer :=
  match r.getPassByName passName with
  | none => .error (r.unknownPassError passName)
  | some _ =>
    .ok { r with passes := updateFirstPass r.passes passName (fun p => { p with enabled := false }) }

/-- `enablePass(passName)`: `UnknownPass` when absent, else sets the
`enabled` flag of the found pass. -/
def Renderer.enablePass (r : Renderer) (passName : String) : Except RendererError Renderer :=
  match r.getPassByName passName with
  | none => .error (r.unknownPassError passName)
  | some _ =>
    .ok { r with passes := updateFirstPass r.passes passName (fun p => { p with enabled := true }) }

/-- `isPassEnabled(passName)`: `UnknownPass` when absent, else the pass's
`enabled` flag. -/
def Renderer.isPassEnabled (r : Renderer) (passName : String) : Except RendererError Bool :=
  match r.getPassByName passName with
  | none => .error (r.unknownPassError passName)
  | some pass => .ok pass.enabled

/-- `removePass(passName)`: splice out the first pass with the name and
return true, or return false; never throws. -/
def Renderer.removePass (r : Renderer) (passName : String) : Renderer × Bool :=
  match r.passes.findIdx? (passNamed passName) with
  | some i => ({ r with passes := r.passes.eraseIdx i }, true)
  | none => (r, false)

/-- `getEnabledPasses()`. -/
def Renderer.getEnabledPasses (r : Renderer) : List RenderPass :=
  r.passes.filter RenderPass.enabled

/-- `switchBindGroupSet(passName, setName)`: `UnknownPass` when the pass is
absent, else delegate to the pass (which may throw `UnknownSet`). -/
def Renderer.switchBindGroupSet (r : Renderer) (passName setName : String) :
    Except RendererError Renderer :=
  match r.getPassByName passName with
  | none => .error (r.unknownPassError passName)
  | some pass =>
    match pass.switchBindGroupSet setName with
    | .error e => .error e
    | .ok p' => .ok { r with passes := updateFirstPass r.passes passName (fun _ => p') }

/-- `createPass(descriptor)` (private): build the internal descriptor
(positional bind-group entries from `resources`, copied `bindGroupSets`) and
construct the `RenderPass` with pipeline format
`descriptor.format || this.format`. -/
def Renderer.createPass (r : Renderer) (descriptor : RenderPassOptions) : RenderPass :=
  let resources := descriptor.resources.getD []
  let finalBindGroupEntries := (List.range resources.length).zip resources
  let internalDescriptor : InternalRenderPassDescriptor :=
    { name := descriptor.name
      shaderCode := descriptor.shaderCode
      entryPoints := descriptor.entryPoints
      clearColor := descriptor.clearColor
      blendMode := descriptor.blendMode
      bindGroupEntries := finalBindGroupEntries
      bindGroupSets := descriptor.bindGroupSets
      view := descriptor.view
      format := descriptor.format
      renderToCanvas := descriptor.renderToCanvas
      sampleCount := descriptor.sampleCount }
  let pipelineFormat := orFalsyStr descriptor.format r.format
  mkRenderPass internalDescriptor pipelineFormat

/-- `addPass(descriptor)`: coerce an unsupported (truthy) sample count to 1,
create the pass, set its `passResources`, and append it to the registry. -/
def Renderer.addPass (r : Renderer) (descriptor : RenderPassOptions) : Renderer :=
  let descriptor :=
    match descriptor.sampleCount with
    | some sc =>
      if sc ≠ 0 ∧ ¬r.isSampleCountSupported sc then { descriptor with sampleCount := some 1 }
      else descriptor
    | none => descriptor
  let pass := r.createPass descriptor
  let pass := { pass with passResources := descriptor.resources.getD [] }
  { r with passes := r.passes ++ [pass] }

/-- `insertPassesTo(passName, descriptors)`: `UnknownPass` when the anchor
is absent (the registry is untouched), else create the new passes in the
descriptors' order and splice them in immediately before the anchor. -/
def Renderer.insertPassesTo (r : Renderer) (passName : String)
    (descriptors : List RenderPassOptions) : Except RendererError Renderer :=
  match r.passes.findIdx? (passNamed passName) with
  | none => .error (r.unknownPassError passName)
  | some i =>
    let newPasses := descriptors.map (fun desc =>
      let pass := r.createPass desc
      { pass with passResources := desc.resources.getD [] })
    .ok { r with passes := r.passes.take i ++ newPasses ++ r.passes.drop i }

/-- `getPassTexture(passName, options?)`: `UnknownPass` when absent; then
`options?.format ?? 'rgba8unorm'` must be strictly equal to the pass's
`format` field (a `===` comparison, so an `undefined` pass format never
matches), else the `Format must be set to ...` error; on success a
`PassTextureRef` is created. -/
def Renderer.getPassTexture (r : Renderer) (passName : String)
    (options : Option TextureRefOptions) : Except RendererError PassTextureRef :=
  match r.passes.find? (passNamed passName) with
  | none => .error (r.unknownPassError passName)
  | some pass =>
    let f := (options.bind TextureRefOptions.format).getD "rgba8unorm"
    if some f ≠ pass.format then .error (.formatMismatch passName pass.format)
    else .ok { passName := passName, options := options }

/-- `resolveTextureRef(ref)` (index.ts lines 135-183): look up the target
pass by name (`UnknownPass` with the registered names when absent); return
the pass's custom view directly when it has one; otherwise fetch the pooled
texture `pass_<index>_output` (index of the found pass in the full registry)
or create it via `device.createTexture` with format
`ref.options?.format || this.format`, usage
`ref.options?.usage || (TEXTURE_BINDING | RENDER_ATTACHMENT)`, the pool's
pixel size, and the validated sample count; finally build the sampling view
with `baseMipLevel: 0` and `mipLevelCount: ref.options?.mipmaps ?
texture.mipLevelCount : 1`. -/
def Renderer.resolveTextureRef (r : Renderer) (ref : PassTextureRef) :
    Except RendererError (GPUTextureView × Renderer) :=
  match r.passes.find? (passNamed ref.passName) with
  | none => .error (r.unknownPassError ref.passName)
  | some targetPass =>
    match targetPass.view with
    | some v => .ok (v, r)
    | none =>
      let targetPassIndex := r.passes.findIdx (passNamed ref.passName)
      let textureName := "pass_" ++ toString targetPassIndex ++ "_output"
      match r.textureManager.getTexture textureName with
      | some texture =>
        .ok (.ofTexture texture 0
              (if jsTrue (ref.options.bind TextureRefOptions.mipmaps)
               then texture.mipLevelCount else 1), r)
      | none =>
        let format := orFalsyStr (ref.options.bind TextureRefOptions.format) r.format
        let usage := orFalsyNat (ref.options.bind TextureRefOptions.usage)
          (TEXTURE_BINDING ||| RENDER_ATTACHMENT)
        let size := r.textureManager.getPixelSize
        let requestedSampleCount := orFalsyNat (ref.options.bind TextureRefOptions.sampleCount) 1
        let actualSampleCount :=
          if r.isSampleCountSupported requestedSampleCount then requestedSampleCount else 1
        let texture : GPUTexture :=
          { id := r.nextId, width := size.1, height := size.2, format := format
            usage := usage, mipLevelCount := 1, sampleCount := actualSampleCount }
        let r' := { r with
          textureManager := r.textureManager.setTexture textureName texture
          nextId := r.nextId + 1 }
        .ok (.ofTexture texture 0
              (if jsTrue (ref.options.bind TextureRefOptions.mipmaps)
               then texture.mipLevelCount else 1), r')

/-- `resolveResource(resource)`: a `PassTextureRef` is resolved to a texture
view; every other binding resource is returned unchanged. -/
def Renderer.resolveResource (r : Renderer) (resource : BindingResource) :
    Except RendererError (GPUBindingRes × Renderer) :=
  match resource with
  | .ref ref =>
    match r.resolveTextureRef ref with
    | .ok (v, r') => .ok (.textureView v, r')
    | .error e => .error e
  | .concrete res => .ok (res, r)

/-- Resolve a resource list left to right (`resources.map(...)`), threading
the texture-pool state. -/
def resolveList (r : Renderer) : List BindingResource →
    Except RendererError (List GPUBindingRes × Renderer)
  | [] => .ok ([], r)
  | res :: rest =>
    match r.resolveResource res with
    | .error e => .error e
    | .ok (g, r') =>
      match resolveList r' rest with
      | .error e => .error e
      | .ok (gs, r'') => .ok (g :: gs, r'')

/-- `updateBindGroupSetResources(passName, setName, resources)`:
`UnknownPass` when absent, else resolve every resource (deferred references
via `resolveResource`) and rebuild the named set on the pass. -/
def Renderer.updateBindGroupSetResources (r : Renderer) (passName setName : String)
    (resources : List BindingResource) : Except RendererError Renderer :=
  match r.getPassByName passName with
  | none => .error (r.unknownPassError passName)
  | some _ =>
    match resolveList r resources with
    | .error e => .error e
    | .ok (resolved, r') =>
      .ok { r' with passes :=
              (updateFirstPass r'.passes passName
                (fun p => p.updateBindGroupSetResources setName resolved)) }

/-- One step of `updateBindGroups` (index.ts lines 386-406): resolve the
`passResources` of the pass at index `i` against the current state and
rebuild its default bind group in place.  Every modelled resource is an
object, hence truthy, so the `if (resource)` filter keeps all entries.  The
fuel is the (invariant) registry length. -/
def updateBindGroupsAux : Nat → Renderer → Nat → Except RendererError Renderer
  | 0, r, _ => .ok r
  | fuel + 1, r, i =>
    match r.passes.get? i with
    | none => .ok r
    | some pass =>
      match resolveList r pass.passResources with
      | .error e => .error e
      | .ok (resolved, r') =>
        let entries := (List.range resolved.length).zip resolved
        let pass' := pass.updateBindGroup entries
        updateBindGroupsAux fuel { r' with passes := r'.passes.set i pass' } (i + 1)

/-- `updateBindGroups()` (private): rebuild the default bind group of every
registered pass from its freshly resolved `passResources`. -/
def Renderer.updateBindGroups (r : Renderer) : Except RendererError Renderer :=
  updateBindGroupsAux r.passes.length r 0

/-! ## Frame executor -/

/-- GPULoadOp. -/
inductive LoadOp
  | clear
  | load
deriving DecidableEq

/-- The render target chosen for one pass execution:
the canvas texture view directly; an MSAA texture resolved to the canvas;
the pass's custom view; the pooled texture (named `pass_<i>_output`); the
pooled MSAA texture pair; or (part_002 export mode) the output texture. -/
inductive RenderTargetSel
  | canvasDirect
  | canvasMsaa (msaa : GPUTexture)
  | custom (v : GPUTextureView)
  | pooled (textureName : String) (texture : GPUTexture)
  | pooledMsaa (textureName : String) (msaa resolveTex : GPUTexture)
  | output (texture : GPUTexture)
deriving DecidableEq

/-- Whether the target writes the presentable canvas surface. -/
def RenderTargetSel.isCanvasTarget : RenderTargetSel → Bool
  | .canvasDirect => true
  | .canvasMsaa _ => true
  | _ => false

/-- The record of one executed pass within a frame: which pass ran, into
which target, and with which load operation. -/
structure PassExec where
  passName : String
  target : RenderTargetSel
  loadOp : LoadOp
deriving DecidableEq

/-- Target selection and state update for one pass of the main variant's
`renderFrame` (index.ts lines 519-617), at position `i` among the enabled
passes; `isLastPass` is `i === enabledPasses.length - 1`. -/
def selectTarget (r : Renderer) (pass : RenderPass) (i : Nat) (isLastPass : Bool) :
    RenderTargetSel × Renderer :=
  if jsTrue pass.renderToCanvas ∨ (isLastPass ∧ pass.view = none) then
    -- render to canvas, through an MSAA texture when requested and supported
    match pass.sampleCount with
    | some sc =>
      if 1 < sc then
        let actualSampleCount := if r.isSampleCountSupported sc then sc else 1
        if actualSampleCount = 1 then (.canvasDirect, r)
        else
          let msaaTexture : GPUTexture :=
            { id := r.nextId, width := r.canvasWidth, height := r.canvasHeight
              format := r.format, usage := RENDER_ATTACHMENT
              mipLevelCount := 1, sampleCount := actualSampleCount }
          (.canvasMsaa msaaTexture, { r with nextId := r.nextId + 1 })
      else (.canvasDirect, r)
    | none => (.canvasDirect, r)
  else
    match pass.view with
    | some v => (.custom v, r)
    | none =>
      -- render to the pooled texture named after the enabled-pass index
      let textureName := "pass_" ++ toString i ++ "_output"
      match r.textureManager.getTexture textureName with
      | some texture =>
        match r.textureManager.getTexture (textureName ++ "_msaa"),
              r.textureManager.getTexture (textureName ++ "_resolve") with
        | some msaaTexture, some resolveTexture =>
          if jsGt1 pass.sampleCount then
            (.pooledMsaa textureName msaaTexture resolveTexture, r)
          else (.pooled textureName texture, r)
        | _, _ => (.pooled textureName texture, r)
      | none =>
        match pass.sampleCount with
        | some sc =>
          if 1 < sc then
            let actualSampleCount := if r.isSampleCountSupported sc then sc else 1
            if 1 < actualSampleCount then
              let size := r.textureManager.getPixelSize
              let msaaTexture : GPUTexture :=
                { id := r.nextId, width := size.1, height := size.2
                  format := orFalsyStr pass.format r.format
                  usage := RENDER_ATTACHMENT ||| TEXTURE_BINDING
                  mipLevelCount := 1, sampleCount := actualSampleCount }
              let resolveTexture : GPUTexture :=
                { id := r.nextId + 1, width := size.1, height := size.2
                  format := orFalsyStr pass.format r.format
                  usage := TEXTURE_BINDING, mipLevelCount := 1, sampleCount := 1 }
              let tm := (r.textureManager.setTexture (textureName ++ "_msaa") msaaTexture
                ).setTexture (textureName ++ "_resolve") resolveTexture
              (.pooledMsaa textureName msaaTexture resolveTexture,
               { r with textureManager := tm, nextId := r.nextId + 2 })
            else
              let ct := r.textureManager.createTexture r.nextId textureName
                (some (orFalsyStr pass.format r.format)) none
              (.pooled textureName ct.1,
               { r with textureManager := ct.2, nextId := r.nextId + 1 })
          else
            let ct := r.textureManager.createTexture r.nextId textureName
              (some (orFalsyStr pass.format r.format)) none
            (.pooled textureName ct.1,
             { r with textureManager := ct.2, nextId := r.nextId + 1 })
        | none =>
          let ct := r.textureManager.createTexture r.nextId textureName
            (some (orFalsyStr pass.format r.format)) none
          (.pooled textureName ct.1,
           { r with textureManager := ct.2, nextId := r.nextId + 1 })

/-- The per-pass loop of the main variant's `renderFrame`: load op is
`clear` for the very first enabled pass and `load` for every later one
(index.ts lines 507-517); target selection per `selectTarget`; `rest.isEmpty`
is the loop's `i === enabledPasses.length - 1` test. -/
def renderLoop : Renderer → List RenderPass → Nat → Renderer × List PassExec
  | r, [], _ => (r, [])
  | r, pass :: rest, i =>
    let loadOp : LoadOp := if i = 0 then .clear else .load
    let st := selectTarget r pass i rest.isEmpty
    let next := renderLoop st.2 rest (i + 1)
    (next.1, ⟨pass.name, st.1, loadOp⟩ :: next.2)

/-- `renderFrame()` of the main variant: no-op on an empty registry or when
no pass is enabled; otherwise resolve and rebuild every pass's bind groups,
then execute the enabled passes in registry order.  The source captures
`enabledPasses` (object references) before `updateBindGroups`; since the
passes are mutated in place and `updateBindGroups` preserves the `enabled`
flag, that array equals the post-update filter used here. -/
def Renderer.renderFrame (r : Renderer) : Except RendererError (Renderer × List PassExec) :=
  if r.passes.length = 0 then .ok (r, [])
  else if (r.getEnabledPasses).length = 0 then .ok (r, [])
  else
    match r.updateBindGroups with
    | .error e => .error e
    | .ok r₁ => .ok (renderLoop r₁ r₁.getEnabledPasses 0)

/-! ## Frame executor of the part_002 snapshot (src/unnamed/part_002,
renderFrame lines 560-685), which tracks a canvas-cleared-this-frame flag -/

/-- `RenderMode` of part_002 (`NORMAL` / `EXPORT`; `EXPORT` renders the
surface passes into the output texture for video capture). -/
inductive RenderMode
  | normal
  | exportMode
deriving DecidableEq

/-- The state touched by part_002's frame loop: render mode, canvas format
and pixel size, the texture pool, the export output texture, the per-frame
`hasClearedCanvasThisFrame` flag, and the fresh-id counter. -/
structure Part002Frame where
  renderMode : RenderMode
  format : String
  canvasWidth : Nat
  canvasHeight : Nat
  textureManager : TextureManager
  outputTexture : Option GPUTexture
  hasClearedCanvasThisFrame : Bool
  nextId : Nat
deriving DecidableEq

/-- `TextureManager.getOrCreateOutputTexture(width, height, format)` of the
part_002-era texture manager: reuse the output texture when its dimensions
match, else destroy and recreate it. -/
def Part002Frame.getOrCreateOutputTexture (s : Part002Frame) (width height : Nat)
    (format : String) : GPUTexture × Part002Frame :=
  match s.outputTexture with
  | some ot =>
    if ot.width = width ∧ ot.height = height then (ot, s)
    else
      let texture : GPUTexture :=
        { id := s.nextId, width := width, height := height, format := format
          usage := RENDER_ATTACHMENT ||| COPY_SRC ||| TEXTURE_BINDING
          mipLevelCount := 1, sampleCount := 1 }
      (texture, { s with outputTexture := some texture, nextId := s.nextId + 1 })
  | none =>
    let texture : GPUTexture :=
      { id := s.nextId, width := width, height := height, format := format
        usage := RENDER_ATTACHMENT ||| COPY_SRC ||| TEXTURE_BINDING
        mipLevelCount := 1, sampleCount := 1 }
    (texture, { s with outputTexture := some texture, nextId := s.nextId + 1 })

/-- The canvas / output-texture load-op adjustment of part_002: once the
surface was cleared this frame a `clear` is demoted to `load`; the first
surface write promotes a `load` to `clear` and sets the flag. -/
def part002AdjustLoadOp (s : Part002Frame) (loadOp : LoadOp) : LoadOp × Part002Frame :=
  if s.hasClearedCanvasThisFrame then
    (if loadOp = .clear then .load else loadOp, s)
  else
    (if loadOp = .load then .clear else loadOp,
     { s with hasClearedCanvasThisFrame := true })

/-- One pass of part_002's `renderFrame` loop (lines 579-682): base load
op is `clear` for the first enabled pass and `load` afterwards; a custom
view wins over everything; in export mode a surface pass writes the output
texture (with the flag adjustment); in normal mode a surface pass writes
the canvas (with the flag adjustment); every other pass writes its pooled
`pass_<i>_output` texture, created on demand with format
`pass.format || this.format`. -/
def part002Step (s : Part002Frame) (pass : RenderPass) (i : Nat) (isLastPass : Bool) :
    PassExec × Part002Frame :=
  let loadOp0 : LoadOp := if i = 0 then .clear else .load
  match pass.view with
  | some v => ((⟨pass.name, .custom v, loadOp0⟩ : PassExec), s)
  | none =>
    if s.renderMode = .exportMode ∧ (jsTrue pass.renderToCanvas ∨ isLastPass) then
      let ot := s.getOrCreateOutputTexture s.canvasWidth s.canvasHeight s.format
      let a := part002AdjustLoadOp ot.2 loadOp0
      (⟨pass.name, .output ot.1, a.1⟩, a.2)
    else if jsTrue pass.renderToCanvas ∨ isLastPass then
      let a := part002AdjustLoadOp s loadOp0
      (⟨pass.name, .canvasDirect, a.1⟩, a.2)
    else
      let textureName := "pass_" ++ toString i ++ "_output"
      match s.textureManager.getTexture textureName with
      | some texture => (⟨pass.name, .pooled textureName texture, loadOp0⟩, s)
      | none =>
        let ct := s.textureManager.createTexture s.nextId textureName
          (some (orFalsyStr pass.format s.format)) none
        (⟨pass.name, .pooled textureName ct.1, loadOp0⟩,
         { s with textureManager := ct.2, nextId := s.nextId + 1 })

/-- The per-pass loop of part_002's `renderFrame` over the enabled passes. -/
def part002Loop : Part002Frame → List RenderPass → Nat → Part002Frame × List PassExec
  | s, [], _ => (s, [])
  | s, pass :: rest, i =>
    let st := part002Step s pass i rest.isEmpty
    let next := part002Loop st.2 rest (i + 1)
    (next.1, st.1 :: next.2)

/-- Lines 567-568 of part_002's `renderFrame`: the per-frame canvas flag is
reset before the enabled passes execute. -/
def part002ExecutePasses (s : Part002Frame) (enabledPasses : List RenderPass) :
    Part002Frame × List PassExec :=
  part002Loop { s with hasClearedCanvasThisFrame := false } enabledPasses 0

/-! ## Spec-side notions used to state the claims -/

/-- The claim-level classification of a render target: the presentable
surface, a custom target view, or a pooled texture of the given name. -/
inductive TargetClass
  | surface
  | custom (v : GPUTextureView)
  | pooled (textureName : String)
deriving DecidableEq

/-- Classify a selected target.  An MSAA canvas target resolves into the
surface; a pooled MSAA pair realizes the pooled target of that name; the
part_002 export output texture plays the surface's role. -/
def RenderTargetSel.classify : RenderTargetSel → TargetClass
  | .canvasDirect => .surface
  | .canvasMsaa _ => .surface
  | .custom v => .custom v
  | .pooled n _ => .pooled n
  | .pooledMsaa n _ _ => .pooled n
  | .output _ => .surface

/-- Modelled from the amended claim C3: target priority of the main
variant's frame executor.  (a) the surface when the pass is flagged
`renderToCanvas`; (b) else the pass's custom target view when set; (c) else
the surface when the pass is the last enabled one; (d) else the pass's own
pooled `pass_<i>_output` texture. -/
def amendedTargetRule (pass : RenderPass) (isLast : Bool) (i : Nat) : TargetClass :=
  if jsTrue pass.renderToCanvas then .surface
  else
    match pass.view with
    | some v => .custom v
    | none =>
      if isLast then .surface
      else .pooled ("pass_" ++ toString i ++ "_output")

/-- The fields of a pass that frame execution and registry claims observe
(everything except the bind-group state rebuilt by `updateBindGroups`). -/
def passShape (p : RenderPass) :
    String × Bool × Option GPUTextureView × Option Bool × Option Nat × Option String :=
  (p.name, p.enabled, p.view, p.renderToCanvas, p.sampleCount, p.format)

/-- The canonical pool name a Deferred reference to `passName` resolves to:
`pass_<positional index of the pass>_output`. -/
def poolNameFor (r : Renderer) (passName : String) : String :=
  "pass_" ++ toString (r.passes.findIdx (passNamed passName)) ++ "_output"

/-! ## Concrete fixtures for witnesses and counterexamples -/

/-- A renderer as produced by `init()` on an 800x600 canvas with preferred
format `bgra8unorm`: empty registry, empty pool, supported sample counts
`[1]`. -/
def emptyRenderer : Renderer :=
  { passes := [], textureManager := ⟨[], 800, 600⟩, format := "bgra8unorm"
    supportedSampleCounts := [1], canvasWidth := 800, canvasHeight := 600, nextId := 0 }

/-- A minimal pass descriptor named `a`. -/
def descA : RenderPassOptions := { name := "a", shaderCode := "@fragment" }

/-- A minimal pass descriptor named `b`. -/
def descB : RenderPassOptions := { name := "b", shaderCode := "@fragment" }

/-- A minimal pass descriptor named `c`. -/
def descC : RenderPassOptions := { name := "c", shaderCode := "@fragment" }

/-- A renderer with two registered passes `a` then `b`. -/
def rendererAB : Renderer := (emptyRenderer.addPass descA).addPass descB

/-- The pass object created for descriptor `a` (what `addPass` pushes). -/
def passA : RenderPass := { emptyRenderer.createPass descA with passResources := [] }

/-- A texture sitting in a sample pool. -/
def tex0 : GPUTexture :=
  { id := 0, width := 800, height := 600, format := "bgra8unorm"
    usage := RENDER_ATTACHMENT ||| TEXTURE_BINDING ||| COPY_DST
    mipLevelCount := 1, sampleCount := 1 }

/-- A pool of size 800x600 holding one texture under `pass_0_output`. -/
def tmSample : TextureManager :=
  { textures := [("pass_0_output", tex0)], width := 800, height := 600 }

/-- A descriptor with both a custom target view and the render-to-surface
flag (the C3 tie-breaking case). -/
def descSurfView : RenderPassOptions :=
  { name := "p", shaderCode := "@fragment"
    view := some (.external 5), renderToCanvas := some true }

/-- A renderer whose single pass has both a custom view and
`renderToCanvas`. -/
def rendererSurfView : Renderer := emptyRenderer.addPass descSurfView

/-- The pass object created for `descSurfView`. -/
def passP : RenderPass := { emptyRenderer.createPass descSurfView with passResources := [] }

/-- A concrete internal descriptor (what `createPass` builds for `descA`). -/
def dInt : InternalRenderPassDescriptor :=
  { name := "p", shaderCode := "@fragment", entryPoints := none, clearColor := none
    blendMode := none, bindGroupEntries := [], bindGroupSets := none, view := none
    format := none, renderToCanvas := none, sampleCount := none }

/-- A freshly constructed pass, before any bind-group build. -/
def freshPass : RenderPass := mkRenderPass dInt "bgra8unorm"

/-- `freshPass` after creating a bind-group set `texA` with one buffer. -/
def passWithSet : RenderPass :=
  freshPass.updateBindGroupSetResources "texA" [.buffer 7]

/-- The frame produced by `renderFrame` on the two-pass renderer (defaults
to a dummy value that the successful run never hits). -/
def frameAB : Renderer × List PassExec :=
  (rendererAB.renderFrame).toOption.getD (rendererAB, [])

/-- A part_002 frame state (normal mode, 800x600, flag arbitrary). -/
def frame002 : Part002Frame :=
  { renderMode := .normal, format := "bgra8unorm", canvasWidth := 800
    canvasHeight := 600, textureManager := ⟨[], 800, 600⟩, outputTexture := none
    hasClearedCanvasThisFrame := false, nextId := 0 }

/-! # Helper lemmas -/

theorem assocFind_assocSet_self {α : Type} (l : List (String × α)) (k : String) (v : α) :
    assocFind (assocSet l k v) k = some v := by
  induction l with
  | nil => simp [assocSet, assocFind]
  | cons hd tl ih =>
    obtain ⟨k', w⟩ := hd
    by_cases h : k' = k
    · simp [assocSet, assocFind, h]
    · simp [assocSet, assocFind, h, ih]

theorem assocFind_assocSet_ne {α : Type} (l : List (String × α)) (k k' : String) (v : α)
    (h : k' ≠ k) : assocFind (assocSet l k v) k' = assocFind l k' := by
  induction l with
  | nil => simp [assocSet, assocFind, h, Ne.symm h]
  | cons hd tl ih =>
    obtain ⟨k₀, w⟩ := hd
    by_cases h0 : k₀ = k
    · subst h0
      simp [assocSet, assocFind, Ne.symm h, h]
    · by_cases h1 : k₀ = k'
      · simp [assocSet, assocFind, h0, h1, h]
      · simp [assocSet, assocFind, h0, h1, ih]

theorem assocFind_assocSet_isSome {α : Type} (l : List (String × α)) (k k' : String) (v : α)
    (h : (assocFind l k').isSome) : (assocFind (assocSet l k v) k').isSome := by
  by_cases hk : k' = k
  · subst hk; simp [assocFind_assocSet_self]
  · rwa [assocFind_assocSet_ne l k k' v hk]

theorem find?_none_findIdx?_none {α : Type} (p : α → Bool) (l : List α)
    (h : l.find? p = none) : l.findIdx? p = none := by
  rw [List.findIdx?_eq_none_iff]
  rw [List.find?_eq_none] at h
  exact fun x hx => by simpa using h x hx

theorem findIdx?_lt_length {α : Type} (p : α → Bool) (l : List α) (i : Nat)
    (h : l.findIdx? p = some i) : i < l.length :=
  ((List.findIdx?_eq_some_iff_findIdx_eq ..).mp h).1

/-! # Claim theorems -/

/-- C6 counterexample: resizing the pool to its current 800x600 dimensions
hits the same-size early return of `TextureManager.resize` and keeps the
pooled texture, contradicting the claim that for every state, after
`resize(width, height)` returns, `get(name)` finds no entry for any
previously pooled name. -/
theorem C6_resize_counterexample :
    (tmSample.resize 800 600).getTexture "pass_0_output" = some tex0 ∧
    (tmSample.resize 800 600).getTexture "pass_0_output" ≠ none := by
  constructor
  · rfl
  · decide

/-- C6 amended: `resize(width, height)` invalidates every pooled texture
provided the new dimensions differ from the current ones (a same-size
resize returns immediately and keeps the pool); after such a resize the map
is empty, `get` finds no entry for any name, and nothing is recreated
eagerly.  `get` is a total lookup returning `none` for absent names, so it
never throws. -/
theorem C6_resize_invalidates (tm : TextureManager) (w h : Nat)
    (hne : ¬(w = tm.width ∧ h = tm.height)) :
    (tm.resize w h).textures = [] ∧
    ∀ name, (tm.resize w h).getTexture name = none := by
  unfold TextureManager.resize
  rw [if_neg hne]
  exact ⟨rfl, fun _ => rfl⟩

/-- Witness for C6: an actual 1024x768 resize of the sample pool empties it. -/
theorem C6_resize_invalidates_witness :
    (tmSample.resize 1024 768).getTexture "pass_0_output" = none ∧
    (tmSample.resize 1024 768).textures = [] :=
  ⟨(C6_resize_invalidates tmSample 1024 768 (by decide)).2 "pass_0_output",
   (C6_resize_invalidates tmSample 1024 768 (by decide)).1⟩

/-- C8: `removePass(name)` is total (it returns a boolean and cannot
throw); when a pass of that name is registered at (first) index `i` it is
spliced out, leaving every other pass in order, and `true` is returned;
when absent the registry is unchanged and `false` is returned. -/
theorem C8_removePass (r : Renderer) (passName : String) :
    (∀ i, r.passes.findIdx? (passNamed passName) = some i →
      r.removePass passName =
        ({ r with passes := r.passes.take i ++ r.passes.drop (i + 1) }, true)) ∧
    (r.passes.findIdx? (passNamed passName) = none →
      r.removePass passName = (r, false)) := by
  constructor
  · intro i hi
    simp [Renderer.removePass, hi, List.eraseIdx_eq_take_drop_succ]
  · intro h
    simp [Renderer.removePass, h]

/-- Witness for C8: removing `a` from the two-pass renderer keeps only `b`
and returns true; removing an unknown name returns false. -/
theorem C8_removePass_witness :
    rendererAB.removePass "a" =
      ({ rendererAB with passes := rendererAB.passes.take 0 ++ rendererAB.passes.drop 1 },
       true) ∧
    rendererAB.removePass "zzz" = (rendererAB, false) :=
  ⟨(C8_removePass rendererAB "a").1 0 (by decide),
   (C8_removePass rendererAB "zzz").2 (by decide)⟩

/-- C2 counterexample: the claim includes `removePass` among the operations
that fail with `UnknownPass` on an unregistered name, but `removePass`
never throws: on the two-pass renderer it returns the pair (unchanged
registry, false) instead of failing. -/
theorem C2_removePass_counterexample :
    rendererAB.removePass "nope" = (rendererAB, false) := by
  decide

/-- C2 amended: for every pass name not present in the registry,
`enablePass`, `disablePass`, `isPassEnabled`, `switchBindGroupSet`,
`updateBindGroupSetResources`, `insertPassesTo`, `getPassTexture` and the
resolution of a Deferred reference (`resolveTextureRef`, invoked from
`renderFrame`) fail with `UnknownPass` whose payload lists every currently
registered pass name in registry order; `removePass` instead returns
`false` without error. -/
theorem C2_unknownPass (r : Renderer) (passName : String)
    (habs : r.passes.find? (passNamed passName) = none) :
    r.disablePass passName = .error (.unknownPass passName (r.passes.map RenderPass.name)) ∧
    r.enablePass passName = .error (.unknownPass passName (r.passes.map RenderPass.name)) ∧
    r.isPassEnabled passName = .error (.unknownPass passName (r.passes.map RenderPass.name)) ∧
    (∀ setName, r.switchBindGroupSet passName setName =
      .error (.unknownPass passName (r.passes.map RenderPass.name))) ∧
    (∀ setName resources, r.updateBindGroupSetResources passName setName resources =
      .error (.unknownPass passName (r.passes.map RenderPass.name))) ∧
    (∀ descriptors, r.insertPassesTo passName descriptors =
      .error (.unknownPass passName (r.passes.map RenderPass.name))) ∧
    (∀ options, r.resolveTextureRef ⟨passName, options⟩ =
      .error (.unknownPass passName (r.passes.map RenderPass.name))) ∧
    (∀ options, r.getPassTexture passName options =
      .error (.unknownPass passName (r.passes.map RenderPass.name))) ∧
    r.removePass passName = (r, false) := by
  have hidx := find?_none_findIdx?_none (passNamed passName) r.passes habs
  refine ⟨?_, ?_, ?_, ?_, ?_, ?_, ?_, ?_, ?_⟩
  · simp [Renderer.disablePass, Renderer.getPassByName, habs, Renderer.unknownPassError]
  · simp [Renderer.enablePass, Renderer.getPassByName, habs, Renderer.unknownPassError]
  · simp [Renderer.isPassEnabled, Renderer.getPassByName, habs, Renderer.unknownPassError]
  · intro setName
    simp [Renderer.switchBindGroupSet, Renderer.getPassByName, habs, Renderer.unknownPassError]
  · intro setName resources
    simp [Renderer.updateBindGroupSetResources, Renderer.getPassByName, habs,
      Renderer.unknownPassError]
  · intro descriptors
    simp [Renderer.insertPassesTo, hidx, Renderer.unknownPassError]
  · intro options
    simp [Renderer.resolveTextureRef, habs, Renderer.unknownPassError]
  · intro options
    simp [Renderer.getPassTexture, habs, Renderer.unknownPassError]
  · simp [Renderer.removePass, hidx]

/-- Witness for C2: on the two-pass renderer an unknown name makes
`disablePass` and `isPassEnabled` fail with the full registry listing. -/
theorem C2_unknownPass_witness :
    rendererAB.disablePass "nope" =
      .error (.unknownPass "nope" (rendererAB.passes.map RenderPass.name)) ∧
    rendererAB.isPassEnabled "nope" =
      .error (.unknownPass "nope" (rendererAB.passes.map RenderPass.name)) :=
  ⟨(C2_unknownPass rendererAB "nope" (by decide)).1,
   (C2_unknownPass rendererAB "nope" (by decide)).2.2.1⟩

/-- C10: for a registered pass, `getPassTexture(passName, options)` throws
unless `options?.format ?? 'rgba8unorm'` is strictly equal to the pass's
`format` field; in particular a pass whose descriptor gave no format (so
the field is `undefined`) always fails the `===` comparison, even when
`getPassTexture` is called with no options. -/
theorem C10_getPassTexture (r : Renderer) (passName : String)
    (options : Option TextureRefOptions) (pass : RenderPass)
    (hfind : r.passes.find? (passNamed passName) = some pass) :
    (pass.format = none →
      r.getPassTexture passName options = .error (.formatMismatch passName none)) ∧
    (pass.format ≠ some ((options.bind TextureRefOptions.format).getD "rgba8unorm") →
      r.getPassTexture passName options = .error (.formatMismatch passName pass.format)) ∧
    (pass.format = some ((options.bind TextureRefOptions.format).getD "rgba8unorm") →
      r.getPassTexture passName options = .ok { passName := passName, options := options }) := by
  refine ⟨?_, ?_, ?_⟩
  · intro hnone
    simp [Renderer.getPassTexture, hfind, hnone]
  · intro hne
    simp [Renderer.getPassTexture, hfind, if_pos (Ne.symm hne)]
  · intro heq
    simp [Renderer.getPassTexture, hfind, heq]

/-- Witness for C10: pass `a` was created without a format, so even
`getPassTexture("a")` with no options throws the format error. -/
theorem C10_getPassTexture_witness :
    rendererAB.getPassTexture "a" none = .error (.formatMismatch "a" none) :=
  (C10_getPassTexture rendererAB "a" none passA (by decide)).1 (by decide)

/-- C5: when a pass named `anchor` sits at (first) index `i`,
`insertPassesTo(anchor, descriptors)` builds the new passes in the
descriptors' order and splices them in at `i`: the result is
`take i ++ new ++ drop i`, so the new passes sit immediately before the
anchor, every previously registered pass keeps its relative order, and the
suffix from the anchor on is untouched; when the anchor is absent the call
fails with `UnknownPass` (listing the registered names) and, the error
being thrown before any mutation, the registry is unchanged. -/
theorem C5_insertPassesTo (r : Renderer) (anchor : String)
    (descriptors : List RenderPassOptions) :
    (∀ i, r.passes.findIdx? (passNamed anchor) = some i →
      r.insertPassesTo anchor descriptors =
        .ok { r with passes :=
          (r.passes.take i
            ++ descriptors.map
                (fun d => { r.createPass d with passResources := d.resources.getD [] })
            ++ r.passes.drop i) } ∧
      ∀ r', r.insertPassesTo anchor descriptors = .ok r' →
        r'.passes.map RenderPass.name =
          (r.passes.map RenderPass.name).take i
            ++ descriptors.map RenderPassOptions.name
            ++ (r.passes.map RenderPass.name).drop i ∧
        r'.passes.drop (i + descriptors.length) = r.passes.drop i) ∧
    (r.passes.findIdx? (passNamed anchor) = none →
      r.insertPassesTo anchor descriptors = .error (r.unknownPassError anchor)) := by
  constructor
  · intro i hi
    have hlen : i < r.passes.length := findIdx?_lt_length _ _ _ hi
    have heq : r.insertPassesTo anchor descriptors =
        .ok { r with passes :=
          (r.passes.take i
            ++ descriptors.map
                (fun d => { r.createPass d with passResources := d.resources.getD [] })
            ++ r.passes.drop i) } := by
      simp [Renderer.insertPassesTo, hi]
    refine ⟨heq, ?_⟩
    intro r' h'
    rw [heq] at h'
    have hr' := Except.ok.inj h'
    subst hr'
    constructor
    · have hname : ∀ d : RenderPassOptions, (r.createPass d).name = d.name :=
        fun _ => rfl
      simp [List.map_append, List.map_take, List.map_drop, List.map_map, Function.comp,
        hname]
    · show (r.passes.take i
          ++ descriptors.map
              (fun d => { r.createPass d with passResources := d.resources.getD [] })
          ++ r.passes.drop i).drop (i + descriptors.length) = r.passes.drop i
      apply List.drop_left'
      simp [Nat.min_eq_left (Nat.le_of_lt hlen)]
  · intro h
    simp [Renderer.insertPassesTo, h]

/-- Witness for C5: inserting `c` before `b` in the two-pass renderer
yields registry names `[a, c, b]` with the anchor suffix preserved. -/
theorem C5_insertPassesTo_witness :
    rendererAB.insertPassesTo "b" [descC] =
      .ok { rendererAB with passes :=
        (rendererAB.passes.take 1
          ++ [descC].map
              (fun d => { rendererAB.createPass d with passResources := d.resources.getD [] })
          ++ rendererAB.passes.drop 1) } :=
  ((C5_insertPassesTo rendererAB "b" [descC]).1 1 (by decide)).1

/-- C1: resolution of binding resources.  For a Deferred reference naming a
registered pass: a custom target view is returned directly with no state
change; otherwise the pooled texture named `pass_<index>_output` is used
when present, or created with format `options.format` if given (formats are
non-empty strings) else the default surface format, and stored in the pool;
either way the returned sampling view has base mip level 0 and a mip count
of the texture's full chain when the `mipmaps` option is set, else 1.
Every non-Deferred binding resource is returned unchanged. -/
theorem C1_resolve (r : Renderer) (ref : PassTextureRef) (pass : RenderPass)
    (hfind : r.passes.find? (passNamed ref.passName) = some pass)
    (hfmt : ∀ s, ref.options.bind TextureRefOptions.format = some s → s ≠ "") :
    (∀ v, pass.view = some v → r.resolveTextureRef ref = .ok (v, r)) ∧
    (pass.view = none →
      (∀ texture,
        r.textureManager.getTexture (poolNameFor r ref.passName) = some texture →
        r.resolveTextureRef ref =
          .ok (.ofTexture texture 0
                (if jsTrue (ref.options.bind TextureRefOptions.mipmaps)
                 then texture.mipLevelCount else 1), r)) ∧
      (r.textureManager.getTexture (poolNameFor r ref.passName) = none →
        ∃ texture r',
          r.resolveTextureRef ref =
            .ok (.ofTexture texture 0
                  (if jsTrue (ref.options.bind TextureRefOptions.mipmaps)
                   then texture.mipLevelCount else 1), r') ∧
          texture.format = (ref.options.bind TextureRefOptions.format).getD r.format ∧
          texture.mipLevelCount = 1 ∧
          r'.textureManager.getTexture (poolNameFor r ref.passName) = some texture ∧
          r'.passes = r.passes)) ∧
    (∀ res, r.resolveResource (.concrete res) = .ok (res, r)) := by
  have hfmtEq : orFalsyStr (ref.options.bind TextureRefOptions.format) r.format =
      (ref.options.bind TextureRefOptions.format).getD r.format := by
    cases h : ref.options.bind TextureRefOptions.format with
    | none => simp [orFalsyStr]
    | some s => simp [orFalsyStr, hfmt s h]
  refine ⟨?_, ?_, ?_⟩
  · intro v hv
    simp [Renderer.resolveTextureRef, hfind, hv]
  · intro hvnone
    constructor
    · intro texture hget
      rw [poolNameFor] at hget
      simp [Renderer.resolveTextureRef, hfind, hvnone, hget]
    · intro hget
      rw [poolNameFor] at hget
      refine ⟨{ id := r.nextId
                width := (r.textureManager.getPixelSize).1
                height := (r.textureManager.getPixelSize).2
                format := orFalsyStr (ref.options.bind TextureRefOptions.format) r.format
                usage := orFalsyNat (ref.options.bind TextureRefOptions.usage)
                  (TEXTURE_BINDING ||| RENDER_ATTACHMENT)
                mipLevelCount := 1
                sampleCount :=
                  if r.isSampleCountSupported
                      (orFalsyNat (ref.options.bind TextureRefOptions.sampleCount) 1)
                  then orFalsyNat (ref.options.bind TextureRefOptions.sampleCount) 1
                  else 1 },
              { r with
                textureManager := r.textureManager.setTexture
                  ("pass_" ++ toString (r.passes.findIdx (passNamed ref.passName)) ++ "_output")
                  { id := r.nextId
                    width := (r.textureManager.getPixelSize).1
                    height := (r.textureManager.getPixelSize).2
                    format := orFalsyStr (ref.options.bind TextureRefOptions.format) r.format
                    usage := orFalsyNat (ref.options.bind TextureRefOptions.usage)
                      (TEXTURE_BINDING ||| RENDER_ATTACHMENT)
                    mipLevelCount := 1
                    sampleCount :=
                      if r.isSampleCountSupported
                          (orFalsyNat (ref.options.bind TextureRefOptions.sampleCount) 1)
                      then orFalsyNat (ref.options.bind TextureRefOptions.sampleCount) 1
                      else 1 }
                nextId := r.nextId + 1 }, ?_, hfmtEq, rfl, ?_, rfl⟩
      · simp [Renderer.resolveTextureRef, hfind, hvnone, hget]
      · simp [poolNameFor, TextureManager.getTexture, TextureManager.setTexture,
          assocFind_assocSet_self]
  · intro res
    rfl

/-- Witness for C1: on the two-pass renderer a concrete buffer resource
resolves to itself, and on the custom-view renderer the Deferred reference
to pass `p` resolves directly to the custom view with no state change. -/
theorem C1_resolve_witness :
    rendererAB.resolveResource (.concrete (.buffer 3)) = .ok (.buffer 3, rendererAB) ∧
    rendererSurfView.resolveTextureRef ⟨"p", none⟩ =
      .ok (.external 5, rendererSurfView) :=
  ⟨(C1_resolve rendererAB ⟨"a", none⟩ passA (by decide) (by decide)).2.2 (.buffer 3),
   (C1_resolve rendererSurfView ⟨"p", none⟩ passP (by decide) (by decide)).1
     (.external 5) (by decide)⟩

theorem bindGroups_mono (p : RenderPass) (op : PassOp) (name : String)
    (h : (assocFind p.bindGroups name).isSome) :
    (assocFind (applyPassOp p op).bindGroups name).isSome := by
  cases op with
  | update entries =>
    simp only [applyPassOp, RenderPass.updateBindGroup]
    exact assocFind_assocSet_isSome _ _ _ _ h
  | updateSet n e =>
    simp only [applyPassOp, RenderPass.updateBindGroupSet]
    cases hx : assocFind p.bindGroups n with
    | some g => exact h
    | none => exact assocFind_assocSet_isSome _ _ _ _ h
  | switchSet n =>
    simp only [applyPassOp, RenderPass.switchBindGroupSet]
    cases hx : assocFind p.bindGroups n with
    | some g => exact h
    | none => exact h
  | updateSetResources n rs =>
    simp only [applyPassOp, RenderPass.updateBindGroupSetResources]
    by_cases ha : p.activeBindGroupSet = n
    · simp only [if_pos ha]
      exact assocFind_assocSet_isSome _ _ _ _ h
    · simp only [if_neg ha]
      exact assocFind_assocSet_isSome _ _ _ _ h

theorem passInv_mk (d : InternalRenderPassDescriptor) (fmt : String) :
    PassInv (mkRenderPass d fmt) := by
  constructor
  · intro h
    exact absurd rfl h
  · intro _
    rfl

theorem passInv_preserved (p : RenderPass) (op : PassOp) (h : PassInv p) :
    PassInv (applyPassOp p op) := by
  obtain ⟨h1, h2⟩ := h
  cases op with
  | update entries =>
    simp only [applyPassOp, RenderPass.updateBindGroup]
    constructor
    · intro ha
      exact assocFind_assocSet_isSome _ _ _ _ (h1 ha)
    · intro hnone
      by_cases ha : p.activeBindGroupSet = "default"
      · rw [ha, assocFind_assocSet_self] at hnone
        exact absurd hnone (by simp)
      · have := assocFind_assocSet_isSome _ "default" p.activeBindGroupSet
          (⟨entries⟩ : GPUBindGroup) (h1 ha)
        rw [hnone] at this
        exact absurd this (by simp)
  | updateSet n e =>
    simp only [applyPassOp, RenderPass.updateBindGroupSet]
    cases hx : assocFind p.bindGroups n with
    | some g => exact ⟨h1, h2⟩
    | none =>
      constructor
      · intro ha
        exact assocFind_assocSet_isSome _ _ _ _ (h1 ha)
      · intro hnone
        by_cases ha : p.activeBindGroupSet = n
        · rw [ha, assocFind_assocSet_self] at hnone
          exact absurd hnone (by simp)
        · rw [assocFind_assocSet_ne _ _ _ _ ha] at hnone
          exact h2 hnone
  | switchSet n =>
    simp only [applyPassOp, RenderPass.switchBindGroupSet]
    cases hx : assocFind p.bindGroups n with
    | some g =>
      constructor
      · intro _
        simp [hx]
      · intro hnone
        rw [hx] at hnone
        exact absurd hnone (by simp)
    | none => exact ⟨h1, h2⟩
  | updateSetResources n rs =>
    simp only [applyPassOp, RenderPass.updateBindGroupSetResources]
    by_cases ha : p.activeBindGroupSet = n
    · simp only [if_pos ha]
      constructor
      · intro _
        rw [ha, assocFind_assocSet_self]
        simp
      · intro hnone
        rw [ha, assocFind_assocSet_self] at hnone
        exact absurd hnone (by simp)
    · simp only [if_neg ha]
      constructor
      · intro hd
        exact assocFind_assocSet_isSome _ _ _ _ (h1 hd)
      · intro hnone
        rw [assocFind_assocSet_ne _ _ _ _ ha] at hnone
        exact h2 hnone

theorem reachable_passInv (p : RenderPass) (h : ReachablePass p) : PassInv p := by
  obtain ⟨d, fmt, ops, rfl⟩ := h
  have key : ∀ (ops : List PassOp) (q : RenderPass), PassInv q →
      PassInv (ops.foldl applyPassOp q) := by
    intro ops
    induction ops with
    | nil => intro q hq; exact hq
    | cons op rest ih =>
      intro q hq
      exact ih _ (passInv_preserved q op hq)
  exact key ops _ (passInv_mk d fmt)

/-- C7: `switchBindGroupSet(name)` fails exactly when the name is absent
from the pass's bind-group map (and since no operation ever deletes a set,
absent means never created), failing with `UnknownSet`; on success the
named set becomes the active set and `getActiveBindGroup` returns it.
`getActiveBindGroup` is total, and in every reachable pass state where the
active name does not map to an existing bind group it returns exactly what
the `default` entry holds (both are then null, the pass never having built
a bind group). -/
theorem C7_bindGroupSets (p : RenderPass) (setName : String) :
    ((∃ e, p.switchBindGroupSet setName = .error e) ↔
      assocFind p.bindGroups setName = none) ∧
    (assocFind p.bindGroups setName = none →
      p.switchBindGroupSet setName =
        .error (.unknownSet setName (p.bindGroups.map Prod.fst))) ∧
    (∀ g, assocFind p.bindGroups setName = some g →
      p.switchBindGroupSet setName =
        .ok { p with activeBindGroupSet := setName, bindGroup := some g } ∧
      RenderPass.getActiveBindGroup
        { p with activeBindGroupSet := setName, bindGroup := some g } = some g) ∧
    (∀ op name, (assocFind p.bindGroups name).isSome →
      (assocFind (applyPassOp p op).bindGroups name).isSome) ∧
    (ReachablePass p → assocFind p.bindGroups p.activeBindGroupSet = none →
      p.getActiveBindGroup = assocFind p.bindGroups "default") := by
  refine ⟨?_, ?_, ?_, ?_, ?_⟩
  · constructor
    · rintro ⟨e, he⟩
      cases hx : assocFind p.bindGroups setName with
      | some g => simp [RenderPass.switchBindGroupSet, hx] at he
      | none => rfl
    · intro hx
      exact ⟨.unknownSet setName (p.bindGroups.map Prod.fst),
        by simp [RenderPass.switchBindGroupSet, hx]⟩
  · intro hx
    simp [RenderPass.switchBindGroupSet, hx]
  · intro g hg
    refine ⟨by simp [RenderPass.switchBindGroupSet, hg], ?_⟩
    simp [RenderPass.getActiveBindGroup, hg]
  · exact fun op name h => bindGroups_mono p op name h
  · intro hreach hnone
    obtain ⟨h1, h2⟩ := reachable_passInv p hreach
    have hdef : p.activeBindGroupSet = "default" := by
      by_contra ha
      have := h1 ha
      rw [hnone] at this
      exact absurd this (by simp)
    rw [RenderPass.getActiveBindGroup, hnone, h2 hnone, ← hdef, hnone]

/-- Witness for C7: on the pass holding set `texA`, switching to `texA`
succeeds and activates it, while switching the fresh pass to an unknown set
fails with `UnknownSet`. -/
theorem C7_bindGroupSets_witness :
    passWithSet.switchBindGroupSet "texA" =
      .ok { passWithSet with
            activeBindGroupSet := "texA"
            bindGroup := some ⟨[(0, .buffer 7)]⟩ } ∧
    freshPass.switchBindGroupSet "nope" =
      .error (.unknownSet "nope" (freshPass.bindGroups.map Prod.fst)) :=
  ⟨((C7_bindGroupSets passWithSet "texA").2.2.1 ⟨[(0, .buffer 7)]⟩ (by decide)).1,
   (C7_bindGroupSets freshPass "nope").2.1 (by decide)⟩

/-- C9 counterexample: the `RenderPass` constructor initializes the
bind-group map to the empty object, so immediately after construction there
is no `"default"` entry at all, contradicting the claim that at every point
after construction the map contains at least `"default"` and the active
pointer names an existing entry. -/
theorem C9_counterexample :
    freshPass.bindGroups = [] ∧
    assocFind freshPass.bindGroups "default" = none ∧
    freshPass.activeBindGroupSet = "default" :=
  ⟨rfl, rfl, rfl⟩

/-- C9 amended: the bind-group map is empty right after construction (with
`activeSet` already `'default'`); the `"default"` entry exists from the
first `updateBindGroup` on (which `renderFrame` performs for every pass
each frame) and no operation ever removes it; and in every reachable state
in which the `"default"` entry exists, the active pointer names an existing
entry of the map. -/
theorem C9_defaultEntry (p : RenderPass) (entries : List (Nat × GPUBindingRes)) :
    (∀ d fmt, (mkRenderPass d fmt).bindGroups = [] ∧
      (mkRenderPass d fmt).activeBindGroupSet = "default") ∧
    assocFind (p.updateBindGroup entries).bindGroups "default" = some ⟨entries⟩ ∧
    (∀ op, (assocFind p.bindGroups "default").isSome →
      (assocFind (applyPassOp p op).bindGroups "default").isSome) ∧
    (ReachablePass p → (assocFind p.bindGroups "default").isSome →
      (assocFind p.bindGroups p.activeBindGroupSet).isSome) := by
  refine ⟨fun d fmt => ⟨rfl, rfl⟩, ?_, ?_, ?_⟩
  · simp [RenderPass.updateBindGroup, assocFind_assocSet_self]
  · exact fun op h => bindGroups_mono p op "default" h
  · intro hreach hdef
    obtain ⟨h1, _⟩ := reachable_passInv p hreach
    by_cases ha : p.activeBindGroupSet = "default"
    · rwa [ha]
    · exact h1 ha

/-- Witness for C9: the fresh pass starts with an empty map; after one
`updateBindGroup` the `default` entry exists and the active pointer
(`default`) names it. -/
theorem C9_defaultEntry_witness :
    assocFind (freshPass.updateBindGroup []).bindGroups "default" = some ⟨[]⟩ ∧
    (assocFind (freshPass.updateBindGroup []).bindGroups
      (freshPass.updateBindGroup []).activeBindGroupSet).isSome := by
  refine ⟨(C9_defaultEntry freshPass []).2.1, ?_⟩
  exact (C9_defaultEntry (freshPass.updateBindGroup []) []).2.2.2
    ⟨dInt, "bgra8unorm", [.update []], rfl⟩ (by decide)

theorem selectTarget_classify (r : Renderer) (pass : RenderPass) (i : Nat) (isLast : Bool) :
    ((selectTarget r pass i isLast).1).classify = amendedTargetRule pass isLast i := by
  by_cases hrc : jsTrue pass.renderToCanvas
  · unfold selectTarget amendedTargetRule
    rw [if_pos (Or.inl hrc), if_pos hrc]
    cases hsc : pass.sampleCount with
    | none => simp [RenderTargetSel.classify]
    | some sc =>
      by_cases h1 : 1 < sc
      · by_cases h2 : (if r.isSampleCountSupported sc then sc else 1) = 1
        · simp [h1, h2, RenderTargetSel.classify]
        · simp [h1, h2, RenderTargetSel.classify]
      · simp [h1, RenderTargetSel.classify]
  · cases hv : pass.view with
    | some v =>
      unfold selectTarget amendedTargetRule
      rw [if_neg (by simp [hrc, hv]), if_neg hrc]
      simp [hv, RenderTargetSel.classify]
    | none =>
      cases isLast with
      | true =>
        unfold selectTarget amendedTargetRule
        rw [if_pos (Or.inr (by simp [hv])), if_neg hrc]
        cases hsc : pass.sampleCount with
        | none => simp [hv, RenderTargetSel.classify]
        | some sc =>
          by_cases h1 : 1 < sc
          · by_cases h2 : (if r.isSampleCountSupported sc then sc else 1) = 1
            · simp [h1, h2, hv, RenderTargetSel.classify]
            · simp [h1, h2, hv, RenderTargetSel.classify]
          · simp [h1, hv, RenderTargetSel.classify]
      | false =>
        unfold selectTarget amendedTargetRule
        rw [if_neg (by simp [hrc, hv]), if_neg hrc]
        simp only [hv]
        cases hget : r.textureManager.getTexture ("pass_" ++ toString i ++ "_output") with
        | some texture =>
          cases hm :
            r.textureManager.getTexture ("pass_" ++ toString i ++ "_output" ++ "_msaa") with
          | some m =>
            cases hres :
              r.textureManager.getTexture
                ("pass_" ++ toString i ++ "_output" ++ "_resolve") with
            | some res =>
              by_cases hgt : jsGt1 pass.sampleCount
              · simp [hget, hm, hres, hgt, RenderTargetSel.classify]
              · simp [hget, hm, hres, hgt, RenderTargetSel.classify]
            | none => simp [hget, hm, hres, RenderTargetSel.classify]
          | none => simp [hget, hm, RenderTargetSel.classify]
        | none =>
          cases hsc : pass.sampleCount with
          | none => simp [hget, hsc, RenderTargetSel.classify]
          | some sc =>
            by_cases h1 : 1 < sc
            · by_cases h2 : 1 < (if r.isSampleCountSupported sc then sc else 1)
              · simp [hget, hsc, h1, h2, RenderTargetSel.classify]
              · simp [hget, hsc, h1, h2, RenderTargetSel.classify]
            · simp [hget, hsc, h1, RenderTargetSel.classify]

theorem renderLoop_length (ps : List RenderPass) : ∀ (r : Renderer) (i : Nat),
    ((renderLoop r ps i).2).length = ps.length := by
  induction ps with
  | nil => intro r i; rfl
  | cons pass rest ih =>
    intro r i
    simp [renderLoop, ih]

theorem renderLoop_get? (ps : List RenderPass) : ∀ (r : Renderer) (i j : Nat)
    (pass : RenderPass), ps.get? j = some pass →
    ∃ e, ((renderLoop r ps i).2).get? j = some e ∧
      e.passName = pass.name ∧
      e.loadOp = (if i + j = 0 then LoadOp.clear else .load) ∧
      e.target.classify = amendedTargetRule pass (decide (j + 1 = ps.length)) (i + j) := by
  induction ps with
  | nil =>
    intro r i j pass h
    simp at h
  | cons p0 rest ih =>
    intro r i j pass h
    cases j with
    | zero =>
      simp only [List.get?_cons_zero, Option.some.injEq] at h
      subst h
      refine ⟨⟨p0.name, (selectTarget r p0 i rest.isEmpty).1,
        if i = 0 then .clear else .load⟩, ?_, rfl, by simp, ?_⟩
      · simp [renderLoop]
      · rw [selectTarget_classify]
        simp only [List.length_cons, Nat.add_zero]
        congr 1
        cases rest <;> simp
    | succ j' =>
      simp only [List.get?_cons_succ] at h
      obtain ⟨e, he, h1, h2, h3⟩ :=
        ih (selectTarget r p0 i rest.isEmpty).2 (i + 1) j' pass h
      refine ⟨e, ?_, h1, ?_, ?_⟩
      · simpa [renderLoop] using he
      · rw [h2]
        have : i + 1 + j' = i + (j' + 1) := by omega
        rw [this]
      · rw [h3]
        simp only [List.length_cons]
        rw [show i + 1 + j' = i + (j' + 1) from by omega]
        rw [show (decide (j' + 1 = rest.length) : Bool)
              = decide (j' + 1 + 1 = rest.length + 1) from
            decide_eq_decide.mpr (by omega)]

theorem resolveTextureRef_passes (r : Renderer) (ref : PassTextureRef) (v : GPUTextureView)
    (r' : Renderer) (h : r.resolveTextureRef ref = .ok (v, r')) : r'.passes = r.passes := by
  unfold Renderer.resolveTextureRef at h
  cases hfind : r.passes.find? (passNamed ref.passName) with
  | none =>
    simp only [hfind] at h
    exact absurd h (by simp)
  | some targetPass =>
    simp only [hfind] at h
    cases hv : targetPass.view with
    | some v0 =>
      simp only [hv, Except.ok.injEq, Prod.mk.injEq] at h
      rw [← h.2]
    | none =>
      simp only [hv] at h
      cases hget : r.textureManager.getTexture
          ("pass_" ++ toString (r.passes.findIdx (passNamed ref.passName)) ++ "_output") with
      | some texture =>
        simp only [hget, Except.ok.injEq, Prod.mk.injEq] at h
        rw [← h.2]
      | none =>
        simp only [hget, Except.ok.injEq, Prod.mk.injEq] at h
        rw [← h.2]

theorem resolveResource_passes (r : Renderer) (res : BindingResource) (g : GPUBindingRes)
    (r' : Renderer) (h : r.resolveResource res = .ok (g, r')) : r'.passes = r.passes := by
  unfold Renderer.resolveResource at h
  cases res with
  | concrete c =>
    simp only [Except.ok.injEq, Prod.mk.injEq] at h
    rw [← h.2]
  | ref ref =>
    cases hx : r.resolveTextureRef ref with
    | error e =>
      simp only [hx] at h
      exact absurd h (by simp)
    | ok pr =>
      obtain ⟨v, r₁⟩ := pr
      simp only [hx, Except.ok.injEq, Prod.mk.injEq] at h
      rw [← h.2]
      exact resolveTextureRef_passes r ref v r₁ hx

theorem resolveList_passes (l : List BindingResource) : ∀ (r : Renderer)
    (gs : List GPUBindingRes) (r' : Renderer),
    resolveList r l = .ok (gs, r') → r'.passes = r.passes := by
  induction l with
  | nil =>
    intro r gs r' h
    simp only [resolveList, Except.ok.injEq, Prod.mk.injEq] at h
    rw [← h.2]
  | cons res rest ih =>
    intro r gs r' h
    unfold resolveList at h
    cases hx : r.resolveResource res with
    | error e =>
      simp only [hx] at h
      exact absurd h (by simp)
    | ok pr =>
      obtain ⟨g, r₁⟩ := pr
      simp only [hx] at h
      cases hy : resolveList r₁ rest with
      | error e =>
        simp only [hy] at h
        exact absurd h (by simp)
      | ok pr₂ =>
        obtain ⟨gs₂, r₂⟩ := pr₂
        simp only [hy, Except.ok.injEq, Prod.mk.injEq] at h
        rw [← h.2]
        rw [ih r₁ gs₂ r₂ hy]
        exact resolveResource_passes r res g r₁ hx

theorem list_set_get? {α : Type} (l : List α) : ∀ (i : Nat) (a : α),
    l.get? i = some a → l.set i a = l := by
  induction l with
  | nil =>
    intro i a h
    simp at h
  | cons hd tl ih =>
    intro i a h
    cases i with
    | zero =>
      simp only [List.get?_cons_zero, Option.some.injEq] at h
      rw [← h]
      rfl
    | succ i' =>
      simp only [List.get?_cons_succ] at h
      simp [List.set_cons_succ, ih i' a h]

theorem updateBindGroupsAux_shape : ∀ (fuel : Nat) (r : Renderer) (i : Nat) (r' : Renderer),
    updateBindGroupsAux fuel r i = .ok r' →
    r'.passes.map passShape = r.passes.map passShape := by
  intro fuel
  induction fuel with
  | zero =>
    intro r i r' h
    simp only [updateBindGroupsAux, Except.ok.injEq] at h
    rw [← h]
  | succ fuel ih =>
    intro r i r' h
    unfold updateBindGroupsAux at h
    cases hg : r.passes.get? i with
    | none =>
      rw [hg] at h
      simp only [Except.ok.injEq] at h
      rw [← h]
    | some pass =>
      simp only [hg] at h
      cases hres : resolveList r pass.passResources with
      | error e =>
        simp only [hres] at h
        exact absurd h (by simp)
      | ok pr =>
        obtain ⟨resolved, r₁⟩ := pr
        simp only [hres] at h
        have hmap := ih _ _ _ h
        rw [hmap]
        show (r₁.passes.set i
          (pass.updateBindGroup ((List.range resolved.length).zip resolved))).map passShape
          = r.passes.map passShape
        rw [resolveList_passes _ _ _ _ hres, List.map_set]
        have hsh : passShape (pass.updateBindGroup ((List.range resolved.length).zip resolved))
            = passShape pass := rfl
        rw [hsh]
        apply list_set_get?
        rw [List.get?_map, hg]
        rfl

theorem updateBindGroups_shape (r r₁ : Renderer) (h : r.updateBindGroups = .ok r₁) :
    r₁.passes.map passShape = r.passes.map passShape :=
  updateBindGroupsAux_shape _ _ _ _ h

theorem filter_shape_eq : ∀ (l₁ l₂ : List RenderPass),
    l₁.map passShape = l₂.map passShape →
    (l₁.filter RenderPass.enabled).map passShape
      = (l₂.filter RenderPass.enabled).map passShape := by
  intro l₁
  induction l₁ with
  | nil =>
    intro l₂ h
    cases l₂ with
    | nil => rfl
    | cons q qs => simp at h
  | cons p ps ih =>
    intro l₂ h
    cases l₂ with
    | nil => simp at h
    | cons q qs =>
      simp only [List.map_cons, List.cons.injEq] at h
      obtain ⟨hpq, hrest⟩ := h
      have hen : p.enabled = q.enabled := congrArg (fun t => t.2.1) hpq
      rw [List.filter_cons, List.filter_cons, hen]
      by_cases hq : q.enabled
      · simp only [hq, if_pos]
        simp [hpq, ih _ hrest]
      · simp only [hq]
        simp [ih _ hrest]

theorem amendedTargetRule_shape (p q : RenderPass) (h : passShape p = passShape q)
    (isLast : Bool) (i : Nat) :
    amendedTargetRule p isLast i = amendedTargetRule q isLast i := by
  have hview : p.view = q.view := congrArg (fun t => t.2.2.1) h
  have hrtc : p.renderToCanvas = q.renderToCanvas := congrArg (fun t => t.2.2.2.1) h
  unfold amendedTargetRule
  rw [hview, hrtc]

theorem map_shape_get? (l₁ l₂ : List RenderPass) (h : l₁.map passShape = l₂.map passShape)
    (j : Nat) (pass : RenderPass) (hj : l₁.get? j = some pass) :
    ∃ q, l₂.get? j = some q ∧ passShape q = passShape pass := by
  have h1 : (l₂.get? j).map passShape = some (passShape pass) := by
    rw [← List.get?_map, ← h, List.get?_map, hj]
    rfl
  cases hq : l₂.get? j with
  | none =>
    rw [hq] at h1
    simp at h1
  | some q =>
    rw [hq] at h1
    simp at h1
    exact ⟨q, rfl, h1⟩

theorem renderFrame_ok (r r' : Renderer) (tr : List PassExec)
    (h : r.renderFrame = .ok (r', tr)) :
    (tr = [] ∧ r.getEnabledPasses = []) ∨
    ∃ r₁, r.updateBindGroups = .ok r₁ ∧
      tr = (renderLoop r₁ r₁.getEnabledPasses 0).2 ∧
      r₁.passes.map passShape = r.passes.map passShape := by
  unfold Renderer.renderFrame at h
  by_cases h0 : r.passes.length = 0
  · rw [if_pos h0] at h
    simp only [Except.ok.injEq, Prod.mk.injEq] at h
    refine Or.inl ⟨h.2.symm, ?_⟩
    have : r.passes = [] := List.length_eq_zero.mp h0
    simp [Renderer.getEnabledPasses, this]
  · rw [if_neg h0] at h
    by_cases h1 : r.getEnabledPasses.length = 0
    · rw [if_pos h1] at h
      simp only [Except.ok.injEq, Prod.mk.injEq] at h
      exact Or.inl ⟨h.2.symm, List.length_eq_zero.mp h1⟩
    · rw [if_neg h1] at h
      cases hu : r.updateBindGroups with
      | error e =>
        simp only [hu] at h
        exact absurd h (by simp)
      | ok r₁ =>
        simp only [hu, Except.ok.injEq] at h
        exact Or.inr ⟨r₁, rfl, (congrArg Prod.snd h).symm, updateBindGroups_shape r r₁ hu⟩

/-- C3 counterexample: a pass with both a custom target view and the
`renderToCanvas` flag renders to the canvas surface, not to its custom
view: the source tests `pass.renderToCanvas || isLastPass && !pass.view`
before ever looking at `pass.view`, so the flag wins the tie, contradicting
the claimed priority in which the custom target view comes first. -/
theorem C3_counterexample :
    (rendererSurfView.renderFrame).toOption.map (fun x => x.2.map PassExec.target)
      = some [RenderTargetSel.canvasDirect] ∧
    RenderTargetSel.canvasDirect.classify ≠ TargetClass.custom (GPUTextureView.external 5) := by
  constructor
  · rfl
  · decide

/-- C3 amended: for every enabled pass executed by `renderFrame`, the
render target is chosen in this priority order: (a) the presentable surface
when the pass is flagged `renderToCanvas`; (b) else the pass's custom
target view when set; (c) else the surface when it is the last enabled
pass; (d) otherwise its own pooled `pass_i_output` texture, created on
demand.  In particular, a pass that has both a custom target view and the
render-to-surface flag renders to the surface. -/
theorem C3_targetPriority (r r' : Renderer) (tr : List PassExec)
    (h : r.renderFrame = .ok (r', tr)) :
    tr.length = r.getEnabledPasses.length ∧
    ∀ j pass, r.getEnabledPasses.get? j = some pass →
      ∃ e, tr.get? j = some e ∧ e.passName = pass.name ∧
        e.target.classify =
          amendedTargetRule pass (decide (j + 1 = r.getEnabledPasses.length)) j ∧
        (jsTrue pass.renderToCanvas = true → e.target.classify = .surface) := by
  rcases renderFrame_ok r r' tr h with ⟨htr, hen⟩ | ⟨r₁, hu, htr, hshape⟩
  · subst htr
    rw [hen]
    exact ⟨rfl, by intro j pass hj; simp at hj⟩
  · subst htr
    have hshapeE : (r₁.getEnabledPasses).map passShape
        = (r.getEnabledPasses).map passShape :=
      filter_shape_eq _ _ hshape
    have hlen : r₁.getEnabledPasses.length = r.getEnabledPasses.length := by
      have := congrArg List.length hshapeE
      simpa using this
    constructor
    · rw [renderLoop_length]
      exact hlen
    · intro j pass hj
      obtain ⟨q, hjq, hq⟩ := map_shape_get? _ _ hshapeE.symm j pass hj
      obtain ⟨e, he, hname, _, hclass⟩ := renderLoop_get? _ r₁ 0 j q hjq
      have h2 : e.target.classify
          = amendedTargetRule pass (decide (j + 1 = r.getEnabledPasses.length)) j := by
        rw [hclass, amendedTargetRule_shape q pass hq, hlen, Nat.zero_add]
      refine ⟨e, he, ?_, h2, ?_⟩
      · rw [hname]
        exact congrArg (fun t => t.1) hq
      · intro hrc
        rw [h2]
        unfold amendedTargetRule
        rw [if_pos hrc]

/-- Witness for C3: on the two-pass renderer, the frame trace has one entry
per enabled pass, and the first entry's target classifies exactly as the
amended rule prescribes for pass `a`. -/
theorem C3_targetPriority_witness :
    frameAB.2.length = rendererAB.getEnabledPasses.length ∧
    (frameAB.2.get? 0).map (fun e => e.target.classify)
      = some (amendedTargetRule passA
          (decide (0 + 1 = rendererAB.getEnabledPasses.length)) 0) := by
  have h : rendererAB.renderFrame = .ok (frameAB.1, frameAB.2) := rfl
  have hc := C3_targetPriority rendererAB frameAB.1 frameAB.2 h
  refine ⟨hc.1, ?_⟩
  obtain ⟨e, he, _, ht, _⟩ := hc.2 0 passA (by decide)
  rw [he, Option.map_some', ht]

theorem part002Step_normal (s : Part002Frame) (pass : RenderPass) (i : Nat) (isLast : Bool)
    (hmode : s.renderMode = .normal) :
    (part002Step s pass i isLast).2.renderMode = .normal ∧
    ((part002Step s pass i isLast).1.target.isCanvasTarget = true →
      (part002Step s pass i isLast).1.loadOp
        = (if s.hasClearedCanvasThisFrame then LoadOp.load else .clear) ∧
      (part002Step s pass i isLast).2.hasClearedCanvasThisFrame = true) ∧
    ((part002Step s pass i isLast).1.target.isCanvasTarget = false →
      (part002Step s pass i isLast).1.loadOp = (if i = 0 then LoadOp.clear else .load) ∧
      (part002Step s pass i isLast).2.hasClearedCanvasThisFrame
        = s.hasClearedCanvasThisFrame) := by
  unfold part002Step
  cases hv : pass.view with
  | some v =>
    simp [hv, RenderTargetSel.isCanvasTarget, hmode]
  | none =>
    simp only [hv, hmode]
    by_cases hc : jsTrue pass.renderToCanvas = true ∨ isLast = true
    · by_cases hf : s.hasClearedCanvasThisFrame
      · by_cases hi : i = 0
        · simp [hc, hf, hi, part002AdjustLoadOp, RenderTargetSel.isCanvasTarget, hmode]
        · simp [hc, hf, hi, part002AdjustLoadOp, RenderTargetSel.isCanvasTarget, hmode]
      · by_cases hi : i = 0
        · simp [hc, hf, hi, part002AdjustLoadOp, RenderTargetSel.isCanvasTarget, hmode]
        · simp [hc, hf, hi, part002AdjustLoadOp, RenderTargetSel.isCanvasTarget, hmode]
    · cases hget : s.textureManager.getTexture ("pass_" ++ toString i ++ "_output") with
      | some texture =>
        simp [hc, hget, RenderTargetSel.isCanvasTarget, hmode]
      | none =>
        simp [hc, hget, RenderTargetSel.isCanvasTarget, hmode]

theorem part002Loop_normal (ps : List RenderPass) : ∀ (s : Part002Frame) (i : Nat),
    s.renderMode = .normal →
    ∀ j e, (part002Loop s ps i).2.get? j = some e →
      (e.target.isCanvasTarget = true →
        (e.loadOp = .clear ↔ s.hasClearedCanvasThisFrame = false ∧
          ∀ k e', k < j → (part002Loop s ps i).2.get? k = some e' →
            e'.target.isCanvasTarget = false)) ∧
      (e.target.isCanvasTarget = false →
        e.loadOp = (if i + j = 0 then LoadOp.clear else .load)) := by
  induction ps with
  | nil =>
    intro s i hmode j e hj
    simp [part002Loop] at hj
  | cons p0 rest ih =>
    intro s i hmode j e hj
    obtain ⟨hm2, hcan, hnon⟩ := part002Step_normal s p0 i rest.isEmpty hmode
    simp only [part002Loop] at hj ⊢
    cases j with
    | zero =>
      simp only [List.get?_cons_zero, Option.some.injEq] at hj
      subst hj
      constructor
      · intro hcanvas
        obtain ⟨hl, _⟩ := hcan hcanvas
        constructor
        · intro hclear
          cases hflag : s.hasClearedCanvasThisFrame with
          | true =>
            rw [hflag] at hl
            simp only [if_pos] at hl
            rw [hl] at hclear
            exact absurd hclear (by decide)
          | false =>
            exact ⟨rfl, fun k e' hk _ => absurd hk (Nat.not_lt_zero k)⟩
        · rintro ⟨hflag, -⟩
          rw [hl, hflag]
          simp
      · intro hnoncanvas
        obtain ⟨hl, -⟩ := hnon hnoncanvas
        rw [hl]
        simp
    | succ j' =>
      simp only [List.get?_cons_succ] at hj
      have ihj := ih (part002Step s p0 i rest.isEmpty).2 (i + 1) hm2 j' e hj
      constructor
      · intro hcanvas
        constructor
        · intro hclear
          obtain ⟨hf2, hall⟩ := (ihj.1 hcanvas).mp hclear
          by_cases hc0 : (part002Step s p0 i rest.isEmpty).1.target.isCanvasTarget = true
          · obtain ⟨-, hfT⟩ := hcan hc0
            rw [hfT] at hf2
            exact absurd hf2 (by decide)
          · have hc0' : (part002Step s p0 i rest.isEmpty).1.target.isCanvasTarget = false := by
              simpa using hc0
            obtain ⟨-, hfEq⟩ := hnon hc0'
            refine ⟨by rw [← hfEq]; exact hf2, ?_⟩
            intro k e' hk hke
            cases k with
            | zero =>
              simp only [List.get?_cons_zero, Option.some.injEq] at hke
              rw [← hke]
              exact hc0'
            | succ k' =>
              simp only [List.get?_cons_succ] at hke
              exact hall k' e' (Nat.lt_of_succ_lt_succ hk) hke
        · rintro ⟨hflag, hall⟩
          apply (ihj.1 hcanvas).mpr
          have hc0 : (part002Step s p0 i rest.isEmpty).1.target.isCanvasTarget = false :=
            hall 0 (part002Step s p0 i rest.isEmpty).1 (Nat.succ_pos j') (by simp)
          obtain ⟨-, hfEq⟩ := hnon hc0
          refine ⟨by rw [hfEq]; exact hflag, ?_⟩
          intro k e' hk hke
          exact hall (k + 1) e' (Nat.succ_lt_succ hk) (by simpa using hke)
      · intro hnoncanvas
        have hl := ihj.2 hnoncanvas
        rw [hl, if_neg (by omega), if_neg (by omega)]

/-- C4 counterexample: on the two-pass renderer the second enabled pass is
the first one to write the surface in the frame, yet its load operation is
`load`, not `clear`: the main `renderFrame` clears only the very first
enabled pass and tracks no per-target cleared state at all, contradicting
the claim that a pass clears any physical target it is the first to write
within the frame. -/
theorem C4_counterexample :
    rendererAB.renderFrame.toOption.map
      (fun x => x.2.map (fun e => (e.target.isCanvasTarget, e.loadOp)))
      = some [(false, .clear), (true, .load)] ∧
    LoadOp.load ≠ LoadOp.clear := by
  constructor
  · rfl
  · decide

/-- C4 amended: in the main variant's `renderFrame` the first enabled pass
uses `clear` and every subsequent enabled pass uses `load`, regardless of
which physical target it writes; no per-target cleared-this-frame state
exists.  Only the part_002 snapshot tracks a cleared flag, and only for the
surface: the flag is reset at the start of each frame (the loop's outcome
is independent of the flag's previous value); there, in normal render mode,
a pass writing the canvas clears it exactly when no earlier pass of the
frame wrote the canvas, while a pass writing any texture target still
follows the first-pass-clears/rest-load rule, even on that texture's first
write of the frame. -/
theorem C4_loadOps :
    (∀ (r r' : Renderer) (tr : List PassExec), r.renderFrame = .ok (r', tr) →
      ∀ j e, tr.get? j = some e →
        e.loadOp = (if j = 0 then LoadOp.clear else .load)) ∧
    (∀ (s : Part002Frame) (b : Bool) (ps : List RenderPass),
      part002ExecutePasses { s with hasClearedCanvasThisFrame := b } ps =
        part002ExecutePasses s ps) ∧
    (∀ (s : Part002Frame) (ps : List RenderPass), s.renderMode = .normal →
      ∀ j e, (part002ExecutePasses s ps).2.get? j = some e →
        (e.target.isCanvasTarget = true →
          (e.loadOp = .clear ↔ ∀ k e', k < j →
            (part002ExecutePasses s ps).2.get? k = some e' →
              e'.target.isCanvasTarget = false)) ∧
        (e.target.isCanvasTarget = false →
          e.loadOp = (if j = 0 then LoadOp.clear else .load))) := by
  refine ⟨?_, ?_, ?_⟩
  · intro r r' tr h j e hj
    rcases renderFrame_ok r r' tr h with ⟨htr, -⟩ | ⟨r₁, -, htr, -⟩
    · subst htr
      simp at hj
    · subst htr
      have hlen := renderLoop_length r₁.getEnabledPasses r₁ 0
      obtain ⟨hlt, -⟩ := List.get?_eq_some.mp hj
      rw [hlen] at hlt
      have hpass : r₁.getEnabledPasses.get? j
          = some (r₁.getEnabledPasses.get ⟨j, hlt⟩) := List.get?_eq_get hlt
      obtain ⟨e', he', -, hl, -⟩ := renderLoop_get? r₁.getEnabledPasses r₁ 0 j _ hpass
      rw [hj] at he'
      have hee : e = e' := Option.some.inj he'
      rw [hee]
      simpa using hl
  · intro s b ps
    rfl
  · intro s ps hmode j e hj
    have h := part002Loop_normal ps { s with hasClearedCanvasThisFrame := false } 0
      hmode j e hj
    refine ⟨?_, ?_⟩
    · intro hcanvas
      rw [(h.1 hcanvas)]
      constructor
      · rintro ⟨-, hall⟩
        exact hall
      · intro hall
        exact ⟨rfl, hall⟩
    · intro hnoncanvas
      have := h.2 hnoncanvas
      rwa [Nat.zero_add] at this

/-- Witness for C4: on the two-pass renderer the second pass loads, and a
part_002 frame run gives the same result whatever the cleared flag held
before the frame (it is reset at frame start). -/
theorem C4_loadOps_witness :
    (frameAB.2.get? 1).map PassExec.loadOp = some LoadOp.load ∧
    part002ExecutePasses { frame002 with hasClearedCanvasThisFrame := true } [passA]
      = part002ExecutePasses frame002 [passA] := by
  constructor
  · rcases hE : frameAB.2.get? 1 with _ | e
    · exact absurd hE (by decide)
    · have hl := C4_loadOps.1 rendererAB frameAB.1 frameAB.2 rfl 1 e hE
      simp [hl]
  · exact C4_loadOps.2.1 frame002 true [passA]

end WGSL
